import Mathlib

set_option autoImplicit false

/-!
Verification development for the hypocaust-2 hypervisor core
(trap dispatcher, SBI virtual firmware, guest-page-fault handling,
interrupt forwarding, and guest memory-set construction).

Shallow embedding of:
  src/trap/mod.rs      - trap dispatcher and its sub-handlers
  src/guest/sbi.rs     - SBI virtual firmware
  src/mm/memory_set.rs - MapArea / GuestMemorySet construction

External collaborators (machine firmware, CSR intrinsics, the PLIC access
emulator, the two-stage translation walker, the instruction decoder, the
frame allocator and the page-table primitives) are modelled as explicit
state fields or as oracle parameters.
-/

/-- Saved per-vCPU state at trap entry (TrapContext in src/trap/context.rs,
declared there and consumed by src/trap/mod.rs): the 32 integer registers
as a function from register index to value, the guest pc `sepc`, and the
G-stage root `hgatp`.  Register indices: A0 = 10, A1 = 11, A6 = 16, A7 = 17. -/
structure TrapContext where
  x : Nat → Nat
  sepc : Nat
  hgatp : Nat

/-- Write register `i` of the context (models `ctx.x[i] = v`). -/
def TrapContext.setX (ctx : TrapContext) (i v : Nat) : TrapContext :=
  { ctx with x := fun j => if j = i then v else ctx.x j }

/-- Error kinds returned by trap sub-handlers (VmmError in src/lib.rs,
values as listed in spec section 7). -/
inductive VmmError
  | Unimplemented
  | DecodeInstError
  | TranslationError
  | PseudoInst
  | DeviceNotFound
deriving DecidableEq

/-- Machine-side state touched by the SBI firmware: the machine-firmware
timer compare value, the `hvip.vstip` and `sie.stimer` CSR bits, and the
console byte streams.  Modelled from the spec: the timer/CSR/console
primitives live in src/sbi and the riscv crate, outside src/. -/
structure HwState where
  timer : Nat
  hvip_vstip : Bool
  sie_stimer : Bool
  console_out : List Nat
  console_in : List Nat
deriving DecidableEq

/-- Modelled from the spec: `sbi::set_timer` programs the machine-firmware
timer to `stime` (spec section 4.2). -/
def set_timer (stime : Nat) (s : HwState) : HwState :=
  { s with timer := stime }

/-- Modelled from the spec: emit one byte via the hypervisor console. -/
def console_putchar (c : Nat) (s : HwState) : HwState :=
  { s with console_out := s.console_out ++ [c] }

/-- Modelled from the spec: read one byte from the console. -/
def console_getchar (s : HwState) : Nat × HwState :=
  match s.console_in with
  | [] => (0, s)
  | c :: rest => (c, { s with console_in := rest })

/-- Modelled from the spec: `hvip::clear_vstip()` clears the
virtual-supervisor timer-pending bit. -/
def hvip_clear_vstip (s : HwState) : HwState :=
  { s with hvip_vstip := false }

/-- Modelled from the spec: `sie::set_stimer()` enables the HS-stage
timer interrupt. -/
def sie_set_stimer (s : HwState) : HwState :=
  { s with sie_stimer := true }

/- SBI extension / function / error constants.  Their declarations live in
src/sbi (outside src/); the values are those of spec section 6. -/

def SBI_SET_TIMER : Nat := 0
def SBI_CONSOLE_PUTCHAR : Nat := 1
def SBI_CONSOLE_GETCHAR : Nat := 2
def SBI_EXTID_BASE : Nat := 0x10
def SBI_EXTID_TIME : Nat := 0x54494D45
def SBI_SET_TIMER_FID : Nat := 0
def SBI_GET_SBI_SPEC_VERSION_FID : Nat := 0
def SBI_GET_SBI_IMPL_ID_FID : Nat := 1
def SBI_GET_SBI_IMPL_VERSION_FID : Nat := 2
def SBI_PROBE_EXTENSION_FID : Nat := 3
def SBI_GET_MVENDORID_FID : Nat := 4
def SBI_GET_MARCHID_FID : Nat := 5
def SBI_GET_MIMPID_FID : Nat := 6
def SBI_SUCCESS : Nat := 0

/-- `SBI_ERR_NOT_SUPPORTED as usize`: the 64-bit two's-complement
representation of the signed SBI error code -2. -/
def SBI_ERR_NOT_SUPPORTED_USIZE : Nat := 2 ^ 64 - 2

/-- The conventional two-word SBI return (SbiRet in src/guest/sbi.rs);
`error` is the signed code stored as a usize. -/
structure SbiRet where
  error : Nat
  value : Nat
deriving DecidableEq

/-- sbi_time_handler (src/guest/sbi.rs lines 85-103): any fid other than
SET_TIMER yields ERR_NOT_SUPPORTED; for SET_TIMER, program the timer,
clear `hvip.vstip`, set `sie.stimer`, and return (SUCCESS, 0). -/
def sbi_time_handler (stime fid : Nat) (s : HwState) : SbiRet × HwState :=
  if fid ≠ SBI_SET_TIMER_FID then
    ({ error := SBI_ERR_NOT_SUPPORTED_USIZE, value := 0 }, s)
  else
    ({ error := SBI_SUCCESS, value := 0 },
      sie_set_stimer (hvip_clear_vstip (set_timer stime s)))

/-- sbi_legacy_set_time (src/guest/sbi.rs lines 109-122): program the
timer, clear `hvip.vstip`, set `sie.stimer`, return (SUCCESS, 0). -/
def sbi_legacy_set_time (stime : Nat) (s : HwState) : SbiRet × HwState :=
  ({ error := SBI_SUCCESS, value := 0 },
    sie_set_stimer (hvip_clear_vstip (set_timer stime s)))

/-- C6: after a SET_TIMER SBI call (TIME extension with fid 0, or legacy
EID 0) is handled with argument `stime`, the machine-firmware timer is
programmed to `stime`, `hvip.vstip = 0`, `sie.stimer = 1`, and the
returned SbiRet is (error = 0, value = 0). -/
theorem set_timer_call_effect (stime : Nat) (s : HwState) :
    sbi_time_handler stime SBI_SET_TIMER_FID s
      = ({ error := 0, value := 0 },
         { s with timer := stime, hvip_vstip := false, sie_stimer := true }) ∧
    sbi_legacy_set_time stime s
      = ({ error := 0, value := 0 },
         { s with timer := stime, hvip_vstip := false, sie_stimer := true }) :=
  ⟨rfl, rfl⟩

/-- C9: handling a legacy SET_TIMER call (EID 0) with argument `stime` has
exactly the same effect as handling a TIME-extension SET_TIMER call
(fid 0) with the same argument: same timer programming, same hvip/sie
updates, and an equal SbiRet. -/
theorem legacy_set_timer_equiv (stime : Nat) (s : HwState) :
    sbi_legacy_set_time stime s = sbi_time_handler stime SBI_SET_TIMER_FID s :=
  rfl

/-- sbi_handler (src/trap/mod.rs lines 54-62), the legacy SBI dispatch
used by `trap_handler`: matches `ctx.x[17]` (A7) against the legacy EIDs
CONSOLE_PUTCHAR (1), CONSOLE_GETCHAR (2) and SET_TIMER (0), performing the
side effect only; CONSOLE_GETCHAR writes the read byte into `ctx.x[10]`.
Any other ext_id returns Unimplemented.  It never writes an
(error, value) pair into A0/A1. -/
def sbi_handler (ctx : TrapContext) (s : HwState) :
    Except VmmError (TrapContext × HwState) :=
  if ctx.x 17 = SBI_CONSOLE_PUTCHAR then
    Except.ok (ctx, console_putchar (ctx.x 10) s)
  else if ctx.x 17 = SBI_CONSOLE_GETCHAR then
    Except.ok (ctx.setX 10 (console_getchar s).1, (console_getchar s).2)
  else if ctx.x 17 = SBI_SET_TIMER then
    Except.ok (ctx, set_timer (ctx.x 10) s)
  else
    Except.error VmmError.Unimplemented

/-- The VirtualSupervisorEnvCall arm of trap_handler (src/trap/mod.rs
lines 172-177): run `sbi_handler`, record a possible error, and advance
`ctx.sepc` by 4.  Returns (context, hardware state, recorded error). -/
def trap_vs_env_call (ctx : TrapContext) (s : HwState) :
    TrapContext × HwState × Option VmmError :=
  match sbi_handler ctx s with
  | Except.ok (ctx2, s2) => ({ ctx2 with sepc := ctx2.sepc + 4 }, s2, none)
  | Except.error e => ({ ctx with sepc := ctx.sepc + 4 }, s, some e)

/-- sbi_console_putchar_handler (src/guest/sbi.rs lines 75-78). -/
def sbi_console_putchar_handler (c : Nat) (s : HwState) : SbiRet × HwState :=
  ({ error := SBI_SUCCESS, value := 0 }, console_putchar c s)

/-- sbi_console_getchar_handler (src/guest/sbi.rs lines 80-83). -/
def sbi_console_getchar_handler (s : HwState) : SbiRet × HwState :=
  ({ error := SBI_SUCCESS, value := (console_getchar s).1 }, (console_getchar s).2)

/-- Oracles for the underlying machine-mode firmware used by
sbi_base_handler: `call1 eid fid arg0` models the one-argument `ecall`
forwarding of `sbi_call_1`, and the remaining fields model the
`sbi_rt` getters. -/
structure Firmware where
  call1 : Nat → Nat → Nat → SbiRet
  impl_id : Nat
  impl_version : Nat
  mvendorid : Nat
  marchid : Nat
  mimpid : Nat

/-- sbi_base_handler (src/guest/sbi.rs lines 54-73).  `none` models the
`panic!` on an unknown base fid. -/
def sbi_base_handler (fw : Firmware) (fid : Nat) (ctx : TrapContext) :
    Option SbiRet :=
  if fid = SBI_GET_SBI_SPEC_VERSION_FID then
    some (fw.call1 SBI_EXTID_BASE fid 0)
  else if fid = SBI_GET_SBI_IMPL_ID_FID then
    some { error := SBI_SUCCESS, value := fw.impl_id }
  else if fid = SBI_GET_SBI_IMPL_VERSION_FID then
    some { error := SBI_SUCCESS, value := fw.impl_version }
  else if fid = SBI_PROBE_EXTENSION_FID then
    some (fw.call1 SBI_EXTID_BASE fid (ctx.x 10))
  else if fid = SBI_GET_MVENDORID_FID then
    some { error := SBI_SUCCESS, value := fw.mvendorid }
  else if fid = SBI_GET_MARCHID_FID then
    some { error := SBI_SUCCESS, value := fw.marchid }
  else if fid = SBI_GET_MIMPID_FID then
    some { error := SBI_SUCCESS, value := fw.mimpid }
  else
    none

/-- sbi_vs_handler (src/guest/sbi.rs lines 34-52): dispatch on
`ctx.x[17]` (A7 = ext_id) with `ctx.x[16]` (A6 = fid), then write
`error` into A0 and `value` into A1.  `none` models the `panic!` on an
unsupported ext_id. -/
def sbi_vs_handler (fw : Firmware) (ctx : TrapContext) (s : HwState) :
    Option (TrapContext × HwState) :=
  let res : Option (SbiRet × HwState) :=
    if ctx.x 17 = SBI_EXTID_BASE then
      (sbi_base_handler fw (ctx.x 16) ctx).map (fun r => (r, s))
    else if ctx.x 17 = SBI_EXTID_TIME then
      some (sbi_time_handler (ctx.x 10) (ctx.x 16) s)
    else if ctx.x 17 = SBI_CONSOLE_PUTCHAR then
      some (sbi_console_putchar_handler (ctx.x 10) s)
    else if ctx.x 17 = SBI_CONSOLE_GETCHAR then
      some (sbi_console_getchar_handler s)
    else if ctx.x 17 = SBI_SET_TIMER then
      some (sbi_legacy_set_time (ctx.x 10) s)
    else
      none
  res.map (fun p => ((ctx.setX 10 p.1.error).setX 11 p.1.value, p.2))

/-- Modelled from the spec: the VS env-call dispatch of the vmexit
handler that calls `sbi_vs_handler` lives in src/guest/vmexit.rs, which
is not under src/; per spec section 4.2 ("the dispatcher advances sepc
by 4 on successful ecall emulation") it runs the SBI engine and then
advances the guest pc by 4. -/
def vs_ecall_dispatch (fw : Firmware) (ctx : TrapContext) (s : HwState) :
    Option (TrapContext × HwState) :=
  (sbi_vs_handler fw ctx s).map (fun p => ({ p.1 with sepc := p.1.sepc + 4 }, p.2))

/-- An initial hardware state used by concrete witnesses. -/
def hw0 : HwState :=
  { timer := 0, hvip_vstip := true, sie_stimer := false
    console_out := [], console_in := [0x5A] }

/-- A trap context performing a legacy CONSOLE_PUTCHAR ecall with
A7 = 1 and argument A0 = 0x41. -/
def cxPut : TrapContext :=
  { x := fun i => if i = 17 then 1 else if i = 10 then 0x41 else 0
    sepc := 0x80200000, hgatp := 0 }

/-- C1 counterexample: the guest ecall CONSOLE_PUTCHAR with A0 = 0x41 is
handled successfully by the trap dispatcher (recorded error = none) and
the SBI error code of a successful putchar is 0, yet on return A0 still
holds 0x41, not the error code: the dispatcher's `sbi_handler` never
writes the (error, value) pair into A0/A1. -/
theorem vs_env_call_a0_not_error :
    (trap_vs_env_call cxPut hw0).2.2 = none ∧
    (sbi_console_putchar_handler 0x41 hw0).1.error = 0 ∧
    (trap_vs_env_call cxPut hw0).1.x 10 = 0x41 ∧
    (trap_vs_env_call cxPut hw0).1.x 10 ≠ (sbi_console_putchar_handler 0x41 hw0).1.error := by
  refine ⟨rfl, rfl, rfl, ?_⟩
  decide

/-- C1 amended: for every VS-mode environment call handled by the trap
dispatcher (trap_handler in src/trap/mod.rs), when the SBI call succeeds
the guest sepc on return equals its value at trap entry plus 4, but the
dispatcher does not write the SBI (error, value) pair into A0/A1: A1 is
left unchanged, and A0 is left unchanged except that CONSOLE_GETCHAR
writes the read character into A0. -/
theorem vs_env_call_behavior (ctx : TrapContext) (s : HwState)
    (hok : (trap_vs_env_call ctx s).2.2 = none) :
    (trap_vs_env_call ctx s).1.sepc = ctx.sepc + 4 ∧
    (trap_vs_env_call ctx s).1.x 11 = ctx.x 11 ∧
    (ctx.x 17 = SBI_CONSOLE_GETCHAR →
      (trap_vs_env_call ctx s).1.x 10 = (console_getchar s).1) ∧
    (ctx.x 17 ≠ SBI_CONSOLE_GETCHAR →
      (trap_vs_env_call ctx s).1.x 10 = ctx.x 10) := by
  by_cases h1 : ctx.x 17 = SBI_CONSOLE_PUTCHAR
  · have h2 : ctx.x 17 ≠ SBI_CONSOLE_GETCHAR := by
      rw [h1]; decide
    simp [trap_vs_env_call, sbi_handler, h1, h2, SBI_CONSOLE_PUTCHAR,
      SBI_CONSOLE_GETCHAR, SBI_SET_TIMER]
  · by_cases h2 : ctx.x 17 = SBI_CONSOLE_GETCHAR
    · simp [trap_vs_env_call, sbi_handler, h1, h2, TrapContext.setX,
        SBI_CONSOLE_PUTCHAR, SBI_CONSOLE_GETCHAR, SBI_SET_TIMER]
    · by_cases h3 : ctx.x 17 = SBI_SET_TIMER
      · simp [trap_vs_env_call, sbi_handler, h1, h2, h3, SBI_CONSOLE_PUTCHAR,
          SBI_CONSOLE_GETCHAR, SBI_SET_TIMER]
      · exfalso
        simp [trap_vs_env_call, sbi_handler, h1, h2, h3] at hok

/-- C1 amended, witnessed at the concrete putchar ecall `cxPut`. -/
theorem vs_env_call_behavior_witness :
    (trap_vs_env_call cxPut hw0).1.sepc = 0x80200000 + 4 ∧
    (trap_vs_env_call cxPut hw0).1.x 10 = 0x41 :=
  ⟨(vs_env_call_behavior cxPut hw0 rfl).1,
   (vs_env_call_behavior cxPut hw0 rfl).2.2.2 (by decide)⟩

/-- C8: a TIME-extension call (A7 = 0x54494D45) with fid ≠ SET_TIMER,
dispatched through the SBI engine, returns to the guest with
A0 = 2^64 - 2 (the usize encoding of the signed error -2,
ERR_NOT_SUPPORTED), A1 = 0, sepc advanced by 4, and no other machine
state changed. -/
theorem time_ext_unsupported_fid (fw : Firmware) (ctx : TrapContext) (s : HwState)
    (hext : ctx.x 17 = SBI_EXTID_TIME) (hfid : ctx.x 16 ≠ SBI_SET_TIMER_FID) :
    vs_ecall_dispatch fw ctx s
      = some ({ (ctx.setX 10 (2 ^ 64 - 2)).setX 11 0 with sepc := ctx.sepc + 4 }, s) := by
  have hb : ctx.x 17 ≠ SBI_EXTID_BASE := by
    rw [hext]; decide
  simp only [vs_ecall_dispatch, sbi_vs_handler, if_neg hb, if_pos hext,
    sbi_time_handler, if_pos hfid, Option.map_some]
  rfl

/-- A concrete machine-firmware oracle used by witnesses. -/
def fw0 : Firmware :=
  { call1 := fun _ _ _ => { error := 0, value := 2 }
    impl_id := 1, impl_version := 3, mvendorid := 0, marchid := 0, mimpid := 0 }

/-- A trap context performing a TIME-extension ecall with fid = 7. -/
def cxTime : TrapContext :=
  { x := fun i => if i = 17 then 0x54494D45 else if i = 16 then 7 else 0
    sepc := 0x1000, hgatp := 0 }

/-- C8 witnessed at the concrete TIME ecall with fid = 7. -/
theorem time_ext_unsupported_fid_witness :
    vs_ecall_dispatch fw0 cxTime hw0
      = some ({ (cxTime.setX 10 (2 ^ 64 - 2)).setX 11 0 with sepc := 0x1000 + 4 }, hw0) :=
  time_ext_unsupported_fid fw0 cxTime hw0 rfl (by decide)

/-- Outcome of guest_page_fault_handler: a mutated context, a VmmError,
or the `todo!()` panic on a valid non-pseudo htinst. -/
inductive GpfResult
  | ok (ctx : TrapContext)
  | err (e : VmmError)
  | fatal

/-- guest_page_fault_handler (src/trap/mod.rs lines 69-108), parametric
in its external collaborators: `pl` models `is_plic_access`
(src/device_emu/plic.rs), `ts gid addr vsatp` models
`two_stage_translation` against the current guest's gpm
(src/guest/pmap.rs), `dec` models `decode_inst_at_addr` returning the
byte length and the decoded instruction (None on decode failure), and
`hpa ctx stval inst` models `HostVmm::handle_plic_access`.  The faulting
guest-physical address is `htval << 2`; with `htinst = 0` the
instruction is fetched through the two-stage walk of `ctx.sepc` and
`ctx.sepc` is advanced by the decoded length after a successful PLIC
access; htinst 0x3020/0x3000 yields PseudoInst; outside the PLIC window
the handler returns DeviceNotFound. -/
def guest_page_fault_handler (pl : Nat → Bool) (ts : Nat → Nat → Nat → Option Nat)
    (dec : Nat → Nat × Option Nat)
    (hpa : TrapContext → Nat → Nat → Except VmmError TrapContext)
    (gid htval htinst stval vsatp : Nat) (ctx : TrapContext) : GpfResult :=
  let addr := htval <<< 2
  if pl addr then
    if htinst = 0 then
      match ts gid ctx.sepc vsatp with
      | some host_inst_addr =>
        match dec host_inst_addr with
        | (len, some inst) =>
          match hpa ctx stval inst with
          | Except.ok ctx2 => GpfResult.ok { ctx2 with sepc := ctx2.sepc + len }
          | Except.error e => GpfResult.err e
        | (_, none) => GpfResult.err VmmError.DecodeInstError
      | none => GpfResult.err VmmError.TranslationError
    else if htinst = 0x3020 ∨ htinst = 0x3000 then
      GpfResult.err VmmError.PseudoInst
    else
      GpfResult.fatal
  else
    GpfResult.err VmmError.DeviceNotFound

/-- C2: for every load/store guest-page fault, the handler computes the
faulting guest-physical address as `htval << 2`; outside the emulated
PLIC window it returns DeviceNotFound; inside the window with
htinst = 0 it returns TranslationError when the two-stage walk of the
guest pc fails, DecodeInstError when the fetched instruction cannot be
decoded, and on success advances `ctx.sepc` by the decoded instruction's
byte length; htinst 0x3020 or 0x3000 yields PseudoInst. -/
theorem guest_page_fault_cases (pl : Nat → Bool) (ts : Nat → Nat → Nat → Option Nat)
    (dec : Nat → Nat × Option Nat)
    (hpa : TrapContext → Nat → Nat → Except VmmError TrapContext)
    (gid htval htinst stval vsatp : Nat) (ctx : TrapContext) :
    (pl (htval <<< 2) = false →
      guest_page_fault_handler pl ts dec hpa gid htval htinst stval vsatp ctx
        = GpfResult.err VmmError.DeviceNotFound) ∧
    (pl (htval <<< 2) = true → htinst = 0 → ts gid ctx.sepc vsatp = none →
      guest_page_fault_handler pl ts dec hpa gid htval htinst stval vsatp ctx
        = GpfResult.err VmmError.TranslationError) ∧
    (∀ a, pl (htval <<< 2) = true → htinst = 0 → ts gid ctx.sepc vsatp = some a →
      (dec a).2 = none →
      guest_page_fault_handler pl ts dec hpa gid htval htinst stval vsatp ctx
        = GpfResult.err VmmError.DecodeInstError) ∧
    (∀ a len inst ctx2, pl (htval <<< 2) = true → htinst = 0 →
      ts gid ctx.sepc vsatp = some a → dec a = (len, some inst) →
      hpa ctx stval inst = Except.ok ctx2 →
      guest_page_fault_handler pl ts dec hpa gid htval htinst stval vsatp ctx
        = GpfResult.ok { ctx2 with sepc := ctx2.sepc + len }) ∧
    ((htinst = 0x3020 ∨ htinst = 0x3000) → pl (htval <<< 2) = true →
      guest_page_fault_handler pl ts dec hpa gid htval htinst stval vsatp ctx
        = GpfResult.err VmmError.PseudoInst) := by
  refine ⟨?_, ?_, ?_, ?_, ?_⟩
  · intro h
    simp [guest_page_fault_handler, h]
  · intro h1 h2 h3
    simp [guest_page_fault_handler, h1, h2, h3]
  · intro a h1 h2 h3 h4
    rcases hd : dec a with ⟨len, oi⟩
    rw [hd] at h4
    simp only at h4
    subst h4
    simp [guest_page_fault_handler, h1, h2, h3, hd]
  · intro a len inst ctx2 h1 h2 h3 h4 h5
    simp [guest_page_fault_handler, h1, h2, h3, h4, h5]
  · intro h1 h2
    have hz : htinst ≠ 0 := by
      rcases h1 with h | h <;> omega
    simp [guest_page_fault_handler, h1, h2, hz]

/-- Concrete PLIC-window predicate for the witness: the qemu-virt PLIC
MMIO window [0xC000000, 0xC400000). -/
def plW : Nat → Bool := fun a => decide (0xC000000 ≤ a ∧ a < 0xC400000)

/-- Concrete two-stage-translation oracle for the witness. -/
def tsW : Nat → Nat → Nat → Option Nat := fun _ pc _ => some (pc + 0x1000)

/-- Concrete decoder oracle for the witness: a 4-byte load. -/
def decW : Nat → Nat × Option Nat := fun _ => (4, some 0x23)

/-- Concrete PLIC-access-emulator oracle for the witness: writes the
claimed IRQ 10 into A0 and succeeds. -/
def hpaW : TrapContext → Nat → Nat → Except VmmError TrapContext :=
  fun c _ _ => Except.ok (c.setX 10 10)

/-- A trap context faulting at guest pc 0x80200000. -/
def cxGpf : TrapContext :=
  { x := fun _ => 0, sepc := 0x80200000, hgatp := 0 }

/-- C2 witnessed on the success branch at the concrete claim-register
fault `htval = 0xC201004 >> 2` with htinst = 0: the PLIC access is
emulated and sepc advances by the decoded length 4. -/
theorem guest_page_fault_cases_witness :
    guest_page_fault_handler plW tsW decW hpaW 0 0x3080401 0 0xC201004 0 cxGpf
      = GpfResult.ok { cxGpf.setX 10 10 with sepc := (cxGpf.setX 10 10).sepc + 4 } :=
  (guest_page_fault_cases plW tsW decW hpaW 0 0x3080401 0 0xC201004 0 cxGpf).2.2.2.1
    (0x80200000 + 0x1000) 4 0x23 (cxGpf.setX 10 10) (by decide) rfl rfl rfl rfl

/-- The emulated-PLIC record of HostVmm (host_plic in
src/hypervisor/mod.rs, consumed by src/trap/mod.rs): base address and
per-context claim/complete latch. -/
structure HostPlic where
  base_addr : Nat
  claim_complete : Nat → Nat

/-- The slice of HostVmm state used by handle_irq and
maybe_forward_interrupt. -/
structure HostVmmIrq where
  guest_id : Nat
  host_plic : HostPlic
  irq_pending : Bool

/-- handle_irq (src/trap/mod.rs lines 139-154): read the host PLIC
claim/complete register at `base_addr + 0x20_0004 + 0x1000 * context_id`
with `context_id = 2 * guest_id + 1` (`mmioRead` models the volatile
MMIO read), latch the returned IRQ in `claim_complete[context_id]`, and
set `irq_pending`. -/
def handle_irq (mmioRead : Nat → Nat) (v : HostVmmIrq) : HostVmmIrq :=
  let context_id := 2 * v.guest_id + 1
  let claim_and_complete_addr := v.host_plic.base_addr + 0x200004 + 0x1000 * context_id
  let irq := mmioRead claim_and_complete_addr
  { v with
      host_plic :=
        { v.host_plic with
            claim_complete := fun i =>
              if i = context_id then irq else v.host_plic.claim_complete i }
      irq_pending := true }

/-- The virtual-supervisor CSR file read and written by
maybe_forward_interrupt. -/
structure VsCsrFile where
  vsstatus_spp : Bool
  vsstatus_sie : Bool
  vsip : Nat
  vsie : Nat
  vstvec : Nat
  vsepc : Nat
  vscause : Nat

/-- maybe_forward_interrupt (src/trap/mod.rs lines 111-135): when
`irq_pending` and either (spp and sie) or (not spp and
`vsip & vsie != 0`), save `ctx.sepc` to vsepc and the hardware scause to
vscause, and redirect `ctx.sepc` to vstvec; otherwise leave everything
unchanged. -/
def maybe_forward_interrupt (v : HostVmmIrq) (scause : Nat) (csr : VsCsrFile)
    (ctx : TrapContext) : VsCsrFile × TrapContext :=
  if !v.irq_pending then (csr, ctx)
  else if (csr.vsstatus_spp ∧ csr.vsstatus_sie)
       ∨ (¬csr.vsstatus_spp ∧ csr.vsip &&& csr.vsie ≠ 0) then
    ({ csr with vsepc := ctx.sepc, vscause := scause },
      { ctx with sepc := csr.vstvec })
  else (csr, ctx)

/-- The SupervisorExternal arm of trap_handler (src/trap/mod.rs lines
206-209): handle_irq then maybe_forward_interrupt. -/
def trap_supervisor_external (mmioRead : Nat → Nat) (v : HostVmmIrq) (scause : Nat)
    (csr : VsCsrFile) (ctx : TrapContext) :
    HostVmmIrq × VsCsrFile × TrapContext :=
  let v2 := handle_irq mmioRead v
  (v2, maybe_forward_interrupt v2 scause csr ctx)

/-- C3: on a SupervisorExternal trap the handler reads the host PLIC
claim/complete register at `base_addr + 0x20_0004 + 0x1000 * context_id`
with `context_id = 2 * guest_id + 1`, stores the returned IRQ in
`claim_complete[context_id]`, and sets `irq_pending`; then, with
`irq_pending` set, if (vsstatus.spp and vsstatus.sie) or (not
vsstatus.spp and `vsip & vsie != 0`), it saves `ctx.sepc` into vsepc and
scause into vscause and sets `ctx.sepc` to vstvec; otherwise `ctx.sepc`
is unchanged. -/
theorem supervisor_external_irq (mmioRead : Nat → Nat) (v : HostVmmIrq)
    (scausev : Nat) (csr : VsCsrFile) (ctx : TrapContext) :
    (trap_supervisor_external mmioRead v scausev csr ctx).1.host_plic.claim_complete
        (2 * v.guest_id + 1)
      = mmioRead (v.host_plic.base_addr + 0x200004 + 0x1000 * (2 * v.guest_id + 1)) ∧
    (trap_supervisor_external mmioRead v scausev csr ctx).1.irq_pending = true ∧
    (((csr.vsstatus_spp ∧ csr.vsstatus_sie)
        ∨ (¬csr.vsstatus_spp ∧ csr.vsip &&& csr.vsie ≠ 0)) →
      (trap_supervisor_external mmioRead v scausev csr ctx).2.1.vsepc = ctx.sepc ∧
      (trap_supervisor_external mmioRead v scausev csr ctx).2.1.vscause = scausev ∧
      (trap_supervisor_external mmioRead v scausev csr ctx).2.2.sepc = csr.vstvec) ∧
    (¬((csr.vsstatus_spp ∧ csr.vsstatus_sie)
        ∨ (¬csr.vsstatus_spp ∧ csr.vsip &&& csr.vsie ≠ 0)) →
      (trap_supervisor_external mmioRead v scausev csr ctx).2.2.sepc = ctx.sepc) := by
  refine ⟨?_, ?_, ?_, ?_⟩
  · simp [trap_supervisor_external, handle_irq]
  · simp [trap_supervisor_external, handle_irq]
  · intro hc
    simp only [Bool.not_eq_true] at hc
    simp [trap_supervisor_external, handle_irq, maybe_forward_interrupt, hc]
  · intro hc
    simp only [Bool.not_eq_true] at hc
    simp [trap_supervisor_external, handle_irq, maybe_forward_interrupt, hc]

/-- A concrete MMIO-read oracle: the host PLIC returns IRQ 10 on any
claim read. -/
def mmio10 : Nat → Nat := fun _ => 10

/-- Concrete HostVmm slice for the witness: guest 0, PLIC at 0xC000000,
no IRQ latched yet. -/
def vmm0 : HostVmmIrq :=
  { guest_id := 0
    host_plic := { base_addr := 0xC000000, claim_complete := fun _ => 0 }
    irq_pending := false }

/-- Concrete CSR file: guest in VS-mode with interrupts enabled. -/
def csr0 : VsCsrFile :=
  { vsstatus_spp := true, vsstatus_sie := true, vsip := 0, vsie := 0
    vstvec := 0x80004000, vsepc := 0, vscause := 0 }

/-- C3 witnessed with guest 0 in VS-mode, sie set, external IRQ 10:
claim_complete[1] = 10, irq_pending set, vsepc/vscause saved and sepc
redirected to vstvec. -/
theorem supervisor_external_irq_witness :
    (trap_supervisor_external mmio10 vmm0 0x8000000000000009 csr0 cxGpf).1.host_plic.claim_complete 1
      = 10 ∧
    (trap_supervisor_external mmio10 vmm0 0x8000000000000009 csr0 cxGpf).1.irq_pending = true ∧
    (trap_supervisor_external mmio10 vmm0 0x8000000000000009 csr0 cxGpf).2.1.vsepc = 0x80200000 ∧
    (trap_supervisor_external mmio10 vmm0 0x8000000000000009 csr0 cxGpf).2.1.vscause
      = 0x8000000000000009 ∧
    (trap_supervisor_external mmio10 vmm0 0x8000000000000009 csr0 cxGpf).2.2.sepc = 0x80004000 := by
  have h := supervisor_external_irq mmio10 vmm0 0x8000000000000009 csr0 cxGpf
  have hc := h.2.2.1 (by simp [csr0])
  exact ⟨h.1, h.2.1, hc.1, hc.2.1, hc.2.2⟩

/-- Trap causes dispatched by trap_handler (src/trap/mod.rs lines
162-218). -/
inductive TrapCause
  | userEnvCall
  | vsEnvCall
  | virtualInstruction
  | illegalInstruction
  | instGuestPageFault
  | loadGuestPageFault
  | storeGuestPageFault
  | supervisorExternal
deriving DecidableEq

/-- Operations on the HOST_VMM mutex. -/
inductive LockOp
  | acquire
  | release
deriving DecidableEq

/-- The sequence of HOST_VMM mutex operations attempted by trap_handler,
in program order, for each dispatched cause (src/trap/mod.rs): one
acquire at dispatch entry (line 166); the InstructionGuestPageFault arm
attempts a second acquire (line 188) while the first is still held and
its arm ends in a panic, so no release follows; the UserEnvCall,
IllegalInstruction and VirtualInstruction arms panic inside the arm
before the release; all remaining arms fall through to
`drop(host_vmm)` (line 212) before the world switch. -/
def trapHandlerLockOps : TrapCause → List LockOp
  | TrapCause.instGuestPageFault => [LockOp.acquire, LockOp.acquire]
  | TrapCause.userEnvCall => [LockOp.acquire]
  | TrapCause.illegalInstruction => [LockOp.acquire]
  | TrapCause.virtualInstruction => [LockOp.acquire]
  | TrapCause.vsEnvCall => [LockOp.acquire, LockOp.release]
  | TrapCause.loadGuestPageFault => [LockOp.acquire, LockOp.release]
  | TrapCause.storeGuestPageFault => [LockOp.acquire, LockOp.release]
  | TrapCause.supervisorExternal => [LockOp.acquire, LockOp.release]

/-- C7 evaluated at the failing cause: dispatching an instruction
guest-page fault acquires the HOST_VMM lock twice with no release in
between (entry lock at line 166 plus the re-lock at line 188), while
every other cause acquires it exactly once. -/
theorem inst_page_fault_double_lock :
    trapHandlerLockOps TrapCause.instGuestPageFault = [LockOp.acquire, LockOp.acquire] ∧
    (trapHandlerLockOps TrapCause.instGuestPageFault).count LockOp.acquire = 2 ∧
    (trapHandlerLockOps TrapCause.vsEnvCall).count LockOp.acquire = 1 ∧
    (trapHandlerLockOps TrapCause.loadGuestPageFault).count LockOp.acquire = 1 ∧
    (trapHandlerLockOps TrapCause.storeGuestPageFault).count LockOp.acquire = 1 ∧
    (trapHandlerLockOps TrapCause.supervisorExternal).count LockOp.acquire = 1 ∧
    (trapHandlerLockOps TrapCause.userEnvCall).count LockOp.acquire = 1 ∧
    (trapHandlerLockOps TrapCause.illegalInstruction).count LockOp.acquire = 1 ∧
    (trapHandlerLockOps TrapCause.virtualInstruction).count LockOp.acquire = 1 := by
  decide

/-- PAGE_SIZE (src/constants): 4 KiB pages. -/
def PAGE_SIZE : Nat := 4096

/-- VirtAddr::floor / PhysAddr::floor: page number of the page containing
the address. -/
def pageFloor (a : Nat) : Nat := a / PAGE_SIZE

/-- VirtAddr::ceil / PhysAddr::ceil: page number rounding the address up
to a page boundary. -/
def pageCeil (a : Nat) : Nat := (a + PAGE_SIZE - 1) / PAGE_SIZE

/-- MapType (src/mm/memory_set.rs lines 619-624). -/
inductive MapType
  | Framed
  | Linear
deriving DecidableEq

/-- MapPermission bits (src/mm/memory_set.rs lines 626-634):
R = 2, W = 4, X = 8, U = 16. -/
def MP_R : Nat := 2
def MP_W : Nat := 4
def MP_X : Nat := 8
def MP_U : Nat := 16

/-- MapArea (src/mm/memory_set.rs lines 499-507): a half-open virtual
page range, an optional physical page range, the map type and the
permission bitmask.  `data_frames` is omitted: the claims below concern
Linear areas only and frame ownership is tracked by the allocator
oracle. -/
structure MapArea where
  vpn_start : Nat
  vpn_end : Nat
  ppn_range : Option (Nat × Nat)
  map_type : MapType
  map_perm : Nat
deriving DecidableEq

/-- MapArea::new (src/mm/memory_set.rs lines 510-540): floor the start
addresses, ceil the end addresses. -/
def MapArea.new (start_va end_va : Nat) (start_pa end_pa : Option Nat)
    (mt : MapType) (perm : Nat) : MapArea :=
  match start_pa, end_pa with
  | some spa, some epa =>
    { vpn_start := pageFloor start_va, vpn_end := pageCeil end_va
      ppn_range := some (pageFloor spa, pageCeil epa)
      map_type := mt, map_perm := perm }
  | _, _ =>
    { vpn_start := pageFloor start_va, vpn_end := pageCeil end_va
      ppn_range := none, map_type := mt, map_perm := perm }

/-- A page table as an association list from vpn to (ppn, pte flags);
the head entry shadows older ones, modelling PageTable::map overwrite
semantics.  The page-table primitives themselves are external
collaborators (spec section 1). -/
def PT : Type := List (Nat × Nat × Nat)

/-- PageTable::map: install (vpn -> ppn, flags). -/
def ptInstall (pt : PT) (vpn ppn flags : Nat) : PT := (vpn, ppn, flags) :: pt

/-- PageTable::translate: first matching entry for vpn. -/
def ptTranslate : PT → Nat → Option (Nat × Nat)
  | [], _ => none
  | (v, p, f) :: rest, vpn => if v = vpn then some (p, f) else ptTranslate rest vpn

/-- The body-first loop of MapArea::map for a present ppn_range
(src/mm/memory_set.rs lines 572-581): map the current (vpn, ppn) pair
via map_one (Linear uses the given ppn, Framed a fresh frame from the
`alloc` oracle; the PTE flags are the permission bits, per
`PTEFlags::from_bits(self.map_perm.bits)`), step both, and exit only
when both have reached their range ends.  `fuel` bounds the number of
iterations: a `false` second component means the fuel ran out with the
exit test never having been true, i.e. the source loop does not
terminate within `fuel` steps. -/
def mapRangeLoop (a : MapArea) (alloc : Nat → Nat) :
    Nat → PT → Nat → Nat → Nat → Nat → PT × Bool
  | 0, pt, _, _, _, _ => (pt, false)
  | fuel + 1, pt, vpn, ppn, endv, endp =>
    let used : Nat :=
      match a.map_type with
      | MapType.Linear => ppn
      | MapType.Framed => alloc vpn
    let pt2 := ptInstall pt vpn used a.map_perm
    if vpn + 1 = endv ∧ ppn + 1 = endp then (pt2, true)
    else mapRangeLoop a alloc fuel pt2 (vpn + 1) (ppn + 1) endv endp

/-- The `for vpn in vpn_range` loop of MapArea::map when ppn_range is
absent (src/mm/memory_set.rs lines 582-586): `none` models the
`ppn_.unwrap()` panic of map_one on a Linear area without a ppn. -/
def mapFramedLoop (a : MapArea) (alloc : Nat → Nat) :
    PT → Nat → Nat → Option PT
  | pt, _, 0 => some pt
  | pt, vpn, n + 1 =>
    match a.map_type with
    | MapType.Linear => none
    | MapType.Framed =>
      mapFramedLoop a alloc (ptInstall pt vpn (alloc vpn) a.map_perm) (vpn + 1) n

/-- MapArea::map (src/mm/memory_set.rs lines 564-587).  `none` models a
panic (the `assert_eq!` on range lengths, or map_one's unwrap) or a loop
that did not terminate within `fuel` steps. -/
def MapArea.map (fuel : Nat) (alloc : Nat → Nat) (a : MapArea) (pt : PT) :
    Option PT :=
  match a.ppn_range with
  | some pr =>
    if pr.2 - pr.1 = a.vpn_end - a.vpn_start then
      match mapRangeLoop a alloc fuel pt a.vpn_start pr.1 a.vpn_end pr.2 with
      | (pt2, true) => some pt2
      | (_, false) => none
    else none
  | none => mapFramedLoop a alloc pt a.vpn_start (a.vpn_end - a.vpn_start)

/-- Entries the loop installs all carry vpns at or above the current
vpn, so lookups strictly below it are unchanged. -/
theorem mapRangeLoop_preserve (a : MapArea) (alloc : Nat → Nat) :
    ∀ fuel pt vpn ppn endv endp w, w < vpn →
      ptTranslate (mapRangeLoop a alloc fuel pt vpn ppn endv endp).1 w
        = ptTranslate pt w := by
  intro fuel
  induction fuel with
  | zero => intro pt vpn ppn endv endp w _; rfl
  | succ n ih =>
    intro pt vpn ppn endv endp w hw
    simp only [mapRangeLoop]
    split
    · simp only [ptInstall, ptTranslate]
      rw [if_neg (by omega)]
    · rw [ih _ (vpn + 1) (ppn + 1) endv endp w (by omega)]
      simp only [ptInstall, ptTranslate]
      rw [if_neg (by omega)]

/-- Started at or beyond the end of the vpn range, the loop's exit test
is never true: the loop never terminates. -/
theorem mapRangeLoop_no_exit (a : MapArea) (alloc : Nat → Nat) :
    ∀ fuel pt vpn ppn endv endp, endv ≤ vpn →
      (mapRangeLoop a alloc fuel pt vpn ppn endv endp).2 = false := by
  intro fuel
  induction fuel with
  | zero => intro pt vpn ppn endv endp _; rfl
  | succ n ih =>
    intro pt vpn ppn endv endp h
    simp only [mapRangeLoop]
    split
    · next hc => exact absurd hc.1 (by omega)
    · exact ih _ _ _ _ _ (by omega)

/-- When the loop of a Linear area exits, every vpn of the range
translates to the linearly offset ppn with exactly the area's
permission bits. -/
theorem mapRangeLoop_translate (a : MapArea) (alloc : Nat → Nat)
    (hlin : a.map_type = MapType.Linear) :
    ∀ fuel pt vpn ppn endv endp,
      (mapRangeLoop a alloc fuel pt vpn ppn endv endp).2 = true →
      ∀ w, vpn ≤ w → w < endv →
        ptTranslate (mapRangeLoop a alloc fuel pt vpn ppn endv endp).1 w
          = some (ppn + (w - vpn), a.map_perm) := by
  intro fuel
  induction fuel with
  | zero =>
    intro pt vpn ppn endv endp h
    simp only [mapRangeLoop] at h
    exact absurd h (by simp)
  | succ n ih =>
    intro pt vpn ppn endv endp h w hw1 hw2
    simp only [mapRangeLoop, hlin] at h ⊢
    by_cases hc : vpn + 1 = endv ∧ ppn + 1 = endp
    · rw [if_pos hc] at h ⊢
      have hwv : w = vpn := by omega
      subst hwv
      simp [ptInstall, ptTranslate]
    · rw [if_neg hc] at h ⊢
      by_cases hwv : w = vpn
      · subst hwv
        rw [mapRangeLoop_preserve a alloc n _ (w + 1) (ppn + 1) endv endp w (by omega)]
        simp [ptInstall, ptTranslate]
      · have hstep := ih _ (vpn + 1) (ppn + 1) endv endp h w (by omega) hw2
        rw [hstep]
        have harith : ppn + 1 + (w - (vpn + 1)) = ppn + (w - vpn) := by omega
        rw [harith]

/-- C5: for every Linear MapArea that `MapArea::map` has successfully
mapped into a page table, the vpn and ppn ranges have equal length (the
`assert_eq!` at line 571 panics otherwise), and every vpn of the range
translates through that page table to `ppn_start + (vpn - vpn_start)`
with exactly the PTE flags encoding the area's map_perm. -/
theorem linear_map_area_translate (fuel : Nat) (alloc : Nat → Nat) (a : MapArea)
    (ps pe : Nat) (pt pt2 : PT) (hlin : a.map_type = MapType.Linear)
    (hp : a.ppn_range = some (ps, pe)) (h : MapArea.map fuel alloc a pt = some pt2) :
    pe - ps = a.vpn_end - a.vpn_start ∧
    ∀ w, a.vpn_start ≤ w → w < a.vpn_end →
      ptTranslate pt2 w = some (ps + (w - a.vpn_start), a.map_perm) := by
  unfold MapArea.map at h
  rw [hp] at h
  dsimp only at h
  split at h
  case isFalse hg => exact absurd h (by simp)
  case isTrue hg =>
    split at h
    case h_2 => exact absurd h (by simp)
    case h_1 pt3 heq =>
      have hterm : (mapRangeLoop a alloc fuel pt a.vpn_start ps a.vpn_end pe).2 = true := by
        rw [heq]
      have htr := mapRangeLoop_translate a alloc hlin fuel pt a.vpn_start ps a.vpn_end pe hterm
      injection h with h
      subst h
      refine ⟨hg, ?_⟩
      intro w hw1 hw2
      have hw := htr w hw1 hw2
      rw [heq] at hw
      exact hw

/-- The constant frame allocator used by concrete witnesses. -/
def alloc0 : Nat → Nat := fun _ => 0

/-- A two-page Linear area vpn [2,4) onto ppn [10,12) with perm R|W. -/
def demoArea : MapArea :=
  { vpn_start := 2, vpn_end := 4, ppn_range := some (10, 12)
    map_type := MapType.Linear, map_perm := 6 }

/-- The page table produced by mapping `demoArea` into an empty table. -/
def demoPT : PT := [(3, 11, 6), (2, 10, 6)]

/-- C5 witnessed on `demoArea`: the ranges have equal length and vpn 3
translates to ppn 11 with flags 6. -/
theorem linear_map_area_translate_witness :
    12 - 10 = demoArea.vpn_end - demoArea.vpn_start ∧
    ptTranslate demoPT 3 = some (11, 6) := by
  have h := linear_map_area_translate 10 alloc0 demoArea 10 12 [] demoPT rfl rfl rfl
  exact ⟨h.1, h.2 3 (by decide) (by decide)⟩

/-- C10: for an area with a present ppn_range, the do-while loop of
`MapArea::map` performs its map_one step before testing its exit
condition, so with any fuel at least 1 the page table holds the mapping
for vpn_start even if the loop never exits; and when the vpn range is
empty (vpn_start = vpn_end), the exit test `ppn == end_ppn && vpn ==
end_vpn` is never true after the first step, so the loop exhausts any
fuel without terminating and `MapArea::map` never returns. -/
theorem map_empty_vpn_range (a : MapArea) (ps pe : Nat) (alloc : Nat → Nat)
    (pt : PT) (fuel : Nat) (hlin : a.map_type = MapType.Linear)
    (hp : a.ppn_range = some (ps, pe)) :
    (1 ≤ fuel →
      ptTranslate (mapRangeLoop a alloc fuel pt a.vpn_start ps a.vpn_end pe).1 a.vpn_start
        = some (ps, a.map_perm)) ∧
    (a.vpn_start = a.vpn_end →
      (mapRangeLoop a alloc fuel pt a.vpn_start ps a.vpn_end pe).2 = false ∧
      MapArea.map fuel alloc a pt = none) := by
  constructor
  · intro hf
    obtain ⟨n, rfl⟩ : ∃ n, fuel = n + 1 := ⟨fuel - 1, by omega⟩
    simp only [mapRangeLoop, hlin]
    split
    · simp [ptInstall, ptTranslate]
    · rw [mapRangeLoop_preserve a alloc n _ (a.vpn_start + 1) (ps + 1) a.vpn_end pe
        a.vpn_start (by omega)]
      simp [ptInstall, ptTranslate]
  · intro he
    refine ⟨mapRangeLoop_no_exit a alloc fuel pt _ _ _ _ (by omega), ?_⟩
    unfold MapArea.map
    rw [hp]
    dsimp only
    by_cases hg : pe - ps = a.vpn_end - a.vpn_start
    · rw [if_pos hg]
      rcases hr : mapRangeLoop a alloc fuel pt a.vpn_start ps a.vpn_end pe with ⟨pt3, b⟩
      have hb := mapRangeLoop_no_exit a alloc fuel pt a.vpn_start ps a.vpn_end pe (by omega)
      rw [hr] at hb
      simp only at hb
      subst hb
      rfl
    · rw [if_neg hg]

/-- An MMIO range of MachineMeta (base address and size). -/
structure MmioDev where
  base_address : Nat
  size : Nat
deriving DecidableEq

/-- The MMIO ranges of MachineMeta (src/hypervisor/fdt.rs, consumed by
new_guest); each may be absent. -/
structure MachineMeta where
  test_finisher_address : Option MmioDev
  virtio : List MmioDev
  uart : Option MmioDev
  clint : Option MmioDev
  plic : Option MmioDev
deriving DecidableEq

/-- MapPermission::R | MapPermission::W | MapPermission::U. -/
def permRWU : Nat := MP_R + MP_W + MP_U

/-- The MMIO-mapping tail of GuestMemorySet::new_guest
(src/mm/memory_set.rs lines 313-385), in push order: test finisher,
virtio devices, UART and CLINT each over their full
[base, base + size) range with R+W+U, and then the PLIC area, which the
source constructs with end address `plic.base_address` - not
`base_address + size` - at lines 374-378. -/
def new_guest_mmio_areas (m : MachineMeta) : List MapArea :=
  (match m.test_finisher_address with
   | some t => [MapArea.new t.base_address (t.base_address + t.size)
       (some t.base_address) (some (t.base_address + t.size)) MapType.Linear permRWU]
   | none => [])
  ++ m.virtio.map (fun d => MapArea.new d.base_address (d.base_address + d.size)
       (some d.base_address) (some (d.base_address + d.size)) MapType.Linear permRWU)
  ++ (match m.uart with
   | some u => [MapArea.new u.base_address (u.base_address + u.size)
       (some u.base_address) (some (u.base_address + u.size)) MapType.Linear permRWU]
   | none => [])
  ++ (match m.clint with
   | some c => [MapArea.new c.base_address (c.base_address + c.size)
       (some c.base_address) (some (c.base_address + c.size)) MapType.Linear permRWU]
   | none => [])
  ++ (match m.plic with
   | some p => [MapArea.new p.base_address p.base_address
       (some p.base_address) (some p.base_address) MapType.Linear permRWU]
   | none => [])

/-- The qemu-virt machine description: test finisher, one virtio slot,
UART, CLINT, and a PLIC window of 6 MiB at 0xC000000. -/
def machineQemu : MachineMeta :=
  { test_finisher_address := some { base_address := 0x100000, size := 0x1000 }
    virtio := [{ base_address := 0x10001000, size := 0x1000 }]
    uart := some { base_address := 0x10000000, size := 0x100 }
    clint := some { base_address := 0x2000000, size := 0x10000 }
    plic := some { base_address := 0xC000000, size := 0x600000 } }

/-- The PLIC MapArea that new_guest builds for `machineQemu`: both the
virtual and the physical range end at the base address. -/
def plicQemuArea : MapArea :=
  MapArea.new 0xC000000 0xC000000 (some 0xC000000) (some 0xC000000) MapType.Linear permRWU

/-- C4 evaluated at the failing input: for the qemu-virt machine, the
PLIC area pushed last by new_guest is `[base, base)` - an empty range -
although the machine's PLIC region has size 0x600000, so the area does
not cover [base_address, base_address + size); covering it would need
vpn_end = pageCeil(base + size) = vpn_start + 0x600.  The UART area, by
contrast, does cover its full one-page extent. -/
theorem new_guest_plic_area_empty :
    (new_guest_mmio_areas machineQemu).getLast? = some plicQemuArea ∧
    plicQemuArea.vpn_start = plicQemuArea.vpn_end ∧
    pageCeil (0xC000000 + 0x600000) = plicQemuArea.vpn_start + 0x600 ∧
    plicQemuArea.vpn_end ≠ pageCeil (0xC000000 + 0x600000) ∧
    (new_guest_mmio_areas machineQemu).get? 2
      = some (MapArea.new 0x10000000 (0x10000000 + 0x100)
          (some 0x10000000) (some (0x10000000 + 0x100)) MapType.Linear permRWU) ∧
    (MapArea.new 0x10000000 (0x10000000 + 0x100)
        (some 0x10000000) (some (0x10000000 + 0x100)) MapType.Linear permRWU).vpn_end
      = pageCeil (0x10000000 + 0x100) := by
  refine ⟨rfl, rfl, rfl, ?_, rfl, rfl⟩
  decide

/-- C10 witnessed on the very PLIC area new_guest builds: with fuel 3
the first page is nevertheless installed, the loop never exits, and
MapArea::map produces no result. -/
theorem map_empty_vpn_range_witness :
    ptTranslate (mapRangeLoop plicQemuArea alloc0 3 [] plicQemuArea.vpn_start 0xC000
        plicQemuArea.vpn_end 0xC000).1 plicQemuArea.vpn_start
      = some (0xC000, plicQemuArea.map_perm) ∧
    (mapRangeLoop plicQemuArea alloc0 3 [] plicQemuArea.vpn_start 0xC000
        plicQemuArea.vpn_end 0xC000).2 = false ∧
    MapArea.map 3 alloc0 plicQemuArea [] = none := by
  have h := map_empty_vpn_range plicQemuArea 0xC000 0xC000 alloc0 [] 3 rfl rfl
  exact ⟨h.1 (by decide), (h.2 rfl).1, (h.2 rfl).2⟩
